import Mathlib

/-!
Verification development for the multi-platform posting hook
(src/hooks/form/useMultiPlatformPost.ts).

The hook is embedded shallowly:

* The data model (Platform, PostContent, PlatformSpecificOptions,
  MultiPlatformPostRequest, PlatformPostResult, MultiPlatformPostResponse)
  mirrors the TypeScript types used by the hook.
* External collaborators (linkedInApi, xApi, substackApi, localStorage) are
  abstracted by an environment: for each loop iteration the environment
  supplies the outcome of the upload call, the outcome of the post call, and
  the stored Substack session id.  Outcomes are either a returned response or
  a thrown value; a thrown JavaScript value is either an Error carrying a
  message or a non-Error value.
* submitMultiPlatformPost is translated into a pure function returning the
  response together with the ordered trace of observable events it performs:
  React state-setter calls, adapter invocations, inter-request delays,
  callback invocations and scheduled timeouts.  Every await in the source
  (the delay promise and each adapter call) is a suspension point; the only
  moments at which other code (such as cancelPosting) can run are these
  suspension points.
* React state is modelled as a HookState record folded over the event trace.
  The abortController local is modelled as part of the hook state, matching
  the specification's OrchestrationState, which includes the cancellation
  token.
* Numeric rounding: the source computes Math.round((k / n) * 90) on binary
  floats; the embedding computes the same rounding (half away from zero for
  nonnegative arguments) on exact rationals, as jsRound (k * 90) n.
* Request payload construction (the exact fields of CreatePostRequest,
  CreateTweetRequest, CreateSubstackPostRequest) is not observable by any
  stated property and cannot throw; the control flow around it (media upload
  sub-step, session lookup, required-title check, the unsupported-platform
  default branch) is modelled in full.
-/

set_option maxHeartbeats 1000000

/-- Platform tags.  The TypeScript union has three members; the constructor
other models an out-of-union runtime string reaching the switch's default
branch through the cast at line 65 of the source. -/
inductive Platform where
  | linkedin
  | x
  | substack
  | other (tag : String)
  deriving DecidableEq, Repr

/-- The string a Platform renders as inside template literals. -/
def Platform.name : Platform → String
  | .linkedin => "linkedin"
  | .x => "x"
  | .substack => "substack"
  | .other tag => tag

/-- JavaScript truthiness of a string-or-absent value: absent, null and the
empty string are falsy. -/
def strTruthy : Option String → Bool
  | some s => !(s == "")
  | none => false

/-- JavaScript expression (m || fallback) for a string-or-absent m. -/
def strOr (m : Option String) (fallback : String) : String :=
  match m with
  | some s => if s == "" then fallback else s
  | none => fallback

inductive MediaType where
  | TEXT
  | IMAGE
  | VIDEO
  deriving DecidableEq, Repr

/-- Post content; media is an opaque handle for the attached file (a File
object is always truthy, so presence is what matters). -/
structure PostContent where
  text : String
  media : Option String
  mediaType : MediaType
  deriving DecidableEq, Repr

structure ArticleData where
  url : String
  title : String
  description : Option String
  deriving DecidableEq, Repr

structure LinkedInOptions where
  visibility : Option String
  articleData : Option ArticleData
  deriving DecidableEq, Repr

structure SubstackOptions where
  title : Option String
  subtitle : Option String
  isDraft : Option Bool
  deriving DecidableEq, Repr

structure PlatformSpecificOptions where
  linkedin : Option LinkedInOptions
  substack : Option SubstackOptions
  deriving DecidableEq, Repr

structure MultiPlatformPostRequest where
  platforms : List Platform
  content : PostContent
  platformSpecific : PlatformSpecificOptions
  deriving DecidableEq, Repr

/-- A normalized adapter response: success flag plus optional message.  The
full platform-native payload is opaque; the result's data field stores the
response itself, as the source does. -/
structure ApiResponse where
  success : Bool
  message : Option String
  deriving DecidableEq, Repr

/-- Response of linkedInApi.uploadMedia; assetUrn models data?.assetUrn. -/
structure UploadResponse where
  success : Bool
  assetUrn : Option String
  message : Option String
  deriving DecidableEq, Repr

/-- A thrown JavaScript value: an Error with its message, or any non-Error
value (whose message is not accessible). -/
inductive Thrown where
  | error (msg : String)
  | nonError
  deriving DecidableEq, Repr

structure PlatformPostResult where
  platform : Platform
  success : Bool
  data : Option ApiResponse
  error : Option String
  deriving DecidableEq, Repr

structure MultiPlatformPostResponse where
  success : Bool
  results : List PlatformPostResult
  message : String
  deriving DecidableEq, Repr

/-- What the external world supplies during one loop iteration: the outcome
of the media-upload call, the outcome of the platform post call, and the
value of localStorage.getItem for the Substack session id. -/
structure IterEnv where
  upload : Except Thrown UploadResponse
  post : Except Thrown ApiResponse
  sessionId : Option String

/-- Hook configuration; requestDelay mirrors the optional option of the same
name (milliseconds between platform requests). -/
structure UseMultiPlatformPostOptions where
  requestDelay : Option Nat
  deriving DecidableEq, Repr

/-- The expression (options.requestDelay || 2000) at line 61 of the source:
an absent delay and a configured delay of 0 are both falsy, so both yield
the 2000 default. -/
def effectiveDelay (options : UseMultiPlatformPostOptions) : Nat :=
  match options.requestDelay with
  | some d => if d == 0 then 2000 else d
  | none => 2000

/-- Math.round (half away from zero on nonnegative input) of the exact
rational num / den. -/
def jsRound (num den : Nat) : Nat := (2 * num + den) / (2 * den)

/-- Observable events performed by the hook, in program order. -/
inductive Event where
  | setIsPosting (b : Bool)
  | setPostSuccess (b : Bool)
  | setPostError (msg : Option String)
  | setUploadProgress (value : Nat)
  | setCurrentPlatforms (platforms : List Platform)
  | setResults (results : List PlatformPostResult)
  | setAbortController (active : Bool)
  | apiCall (platform : Platform)
  | delayWait (ms : Nat)
  | onPartialSuccessCall (results : List PlatformPostResult)
  | onSuccessCall
  | onErrorCall (msg : String)
  | scheduleTimeout (ms : Nat)
  deriving DecidableEq, Repr

/-- The awaits of the source: the inter-request delay promise and every
adapter call.  Other code (in particular cancelPosting) can only run while
the submission is suspended at one of these. -/
def Event.isSuspension : Event → Bool
  | .apiCall _ => true
  | .delayWait _ => true
  | _ => false

/-- The hook's state: the six useState cells plus the abortController
local (modelled, as in the specification's OrchestrationState, as part of
the run's state; active means non-null). -/
structure HookState where
  isPosting : Bool
  postSuccess : Bool
  postError : Option String
  uploadProgress : Nat
  currentPlatforms : List Platform
  results : List PlatformPostResult
  abortActive : Bool
  deriving DecidableEq, Repr

/-- The useState initial values; abortController starts null. -/
def initialHookState : HookState :=
  { isPosting := false, postSuccess := false, postError := none,
    uploadProgress := 0, currentPlatforms := [], results := [],
    abortActive := false }

def applyEvent (s : HookState) : Event → HookState
  | .setIsPosting b => { s with isPosting := b }
  | .setPostSuccess b => { s with postSuccess := b }
  | .setPostError m => { s with postError := m }
  | .setUploadProgress v => { s with uploadProgress := v }
  | .setCurrentPlatforms ps => { s with currentPlatforms := ps }
  | .setResults rs => { s with results := rs }
  | .setAbortController a => { s with abortActive := a }
  | .apiCall _ => s
  | .delayWait _ => s
  | .onPartialSuccessCall _ => s
  | .onSuccessCall => s
  | .onErrorCall _ => s
  | .scheduleTimeout _ => s

def applyEvents (s : HookState) (evs : List Event) : HookState :=
  evs.foldl applyEvent s

/-- cancelPosting (lines 280 to 287): if an abort controller exists, abort
it and synchronously set the three state cells; otherwise do nothing.  It is
a plain synchronous function: it performs no await. -/
def cancelPosting (s : HookState) : HookState :=
  if s.abortActive then
    { s with isPosting := false, uploadProgress := 0,
             postError := some "Posting cancelled by user" }
  else s

/-- The value of platformSpecific.substack?.title. -/
def substackTitle (ps : PlatformSpecificOptions) : Option String :=
  ps.substack.bind fun so => so.title

/-- Truthiness of platformSpecific.substack?.title, the condition tested at
lines 53 and 150 of the source. -/
def substackTitleOk (ps : PlatformSpecificOptions) : Bool :=
  strTruthy (substackTitle ps)

/-- The guard at lines 79 to 82: content.media is present and mediaType is
IMAGE or VIDEO. -/
def needsMediaUpload (content : PostContent) : Bool :=
  content.media.isSome &&
    (content.mediaType == MediaType.IMAGE || content.mediaType == MediaType.VIDEO)

/-- The result record built from an adapter response (lines 124 to 129, 140
to 145, 170 to 175; the three branches are textually identical up to the
platform tag). -/
def platformResult (p : Platform) (resp : ApiResponse) : PlatformPostResult :=
  { platform := p, success := resp.success, data := some resp,
    error := if resp.success then none else resp.message }

/-- One platform's attempt: the body of the try at lines 67 to 196,
excluding the initial delay.  Returns the adapter-call events performed and
either the built PlatformPostResult or the thrown value. -/
def attemptOnePlatform (content : PostContent)
    (platformSpecific : PlatformSpecificOptions) (env : IterEnv)
    (platform : Platform) : List Event × Except Thrown PlatformPostResult :=
  match platform with
  | .linkedin =>
      if needsMediaUpload content then
        match env.upload with
        | .error t => ([Event.apiCall .linkedin], .error t)
        | .ok uploadResponse =>
            if uploadResponse.success && strTruthy uploadResponse.assetUrn then
              match env.post with
              | .error t =>
                  ([Event.apiCall .linkedin, Event.apiCall .linkedin], .error t)
              | .ok response =>
                  ([Event.apiCall .linkedin, Event.apiCall .linkedin],
                   .ok (platformResult .linkedin response))
            else
              ([Event.apiCall .linkedin],
               .error (.error (strOr uploadResponse.message "Failed to upload media")))
      else
        match env.post with
        | .error t => ([Event.apiCall .linkedin], .error t)
        | .ok response =>
            ([Event.apiCall .linkedin], .ok (platformResult .linkedin response))
  | .x =>
      match env.post with
      | .error t => ([Event.apiCall .x], .error t)
      | .ok response => ([Event.apiCall .x], .ok (platformResult .x response))
  | .substack =>
      if !(substackTitleOk platformSpecific) then
        ([], .error (.error "Substack title is required"))
      else if !(strTruthy env.sessionId) then
        ([], .error (.error "Substack session not found"))
      else
        match env.post with
        | .error t => ([Event.apiCall .substack], .error t)
        | .ok response =>
            ([Event.apiCall .substack], .ok (platformResult .substack response))
  | .other tag =>
      ([], .error (.error ("Unsupported platform: " ++ tag)))

/-- The message recorded by the per-platform catch at lines 202 to 205: the
Error's message, or the generic fallback for a non-Error thrown value. -/
def thrownMessage (t : Thrown) (platform : Platform) : String :=
  match t with
  | .error msg => msg
  | .nonError => "Failed to post to " ++ platform.name

/-- The errorResult built by the per-platform catch (lines 199 to 206). -/
def iterErrorResult (platform : Platform) (t : Thrown) : PlatformPostResult :=
  { platform := platform, success := false, data := none,
    error := some (thrownMessage t platform) }

/-- The result recorded for one platform, whether the attempt returned or
threw. -/
def iterResult (content : PostContent) (ps : PlatformSpecificOptions)
    (env : IterEnv) (platform : Platform) : PlatformPostResult :=
  match (attemptOnePlatform content ps env platform).2 with
  | .ok r => r
  | .error t => iterErrorResult platform t

/-- One iteration of the dispatch loop (lines 64 to 210) for the platform at
index i, given the results accumulated so far: the result pushed and the
events performed.  The delay runs inside the try for every index after the
first; on a returned result the source pushes it, republishes progress and
results and fires the partial-success callback on success; on a thrown value
the catch pushes the error result and republishes results only. -/
def loopIter (delay n : Nat) (content : PostContent)
    (ps : PlatformSpecificOptions) (env : IterEnv) (i : Nat)
    (platform : Platform) (acc : List PlatformPostResult) :
    PlatformPostResult × List Event :=
  let pre : List Event := if 0 < i then [Event.delayWait delay] else []
  let attempt := attemptOnePlatform content ps env platform
  match attempt.2 with
  | .ok result =>
      (result,
        pre ++ attempt.1 ++
          [Event.setUploadProgress (jsRound ((acc.length + 1) * 90) n + 10),
           Event.setResults (acc ++ [result])] ++
          (if result.success then [Event.onPartialSuccessCall (acc ++ [result])]
           else []))
  | .error t =>
      let result := iterErrorResult platform t
      (result, pre ++ attempt.1 ++ [Event.setResults (acc ++ [result])])

/-- The dispatch loop, processing the remaining platforms starting at index
i with the results accumulated so far. -/
def runLoop (delay n : Nat) (content : PostContent)
    (ps : PlatformSpecificOptions) (env : Nat → IterEnv) :
    Nat → List Platform → List PlatformPostResult →
    List PlatformPostResult × List Event
  | _, [], acc => (acc, [])
  | i, platform :: rest, acc =>
      let step := loopIter delay n content ps (env i) i platform acc
      let tail := runLoop delay n content ps env (i + 1) rest (acc ++ [step.1])
      (tail.1, step.2 ++ tail.2)

/-- The validation at lines 48 to 56: reject an empty selection, then reject
any selected substack without a truthy title.  Returns the thrown Error's
message, if any. -/
def validationError (req : MultiPlatformPostRequest) : Option String :=
  if req.platforms.length == 0 then
    some "At least one platform must be selected"
  else if req.platforms.any
      (fun p => p == Platform.substack && !(substackTitleOk req.platformSpecific)) then
    some "Substack posts require a title"
  else
    none

/-- Array.prototype.join with separator comma-space, as used at line 238 (an
absent error renders as the empty string). -/
def joinComma : List String → String
  | [] => ""
  | [s] => s
  | s :: rest => s ++ ", " ++ joinComma rest

/-- The synthetic total-failure Error message thrown at lines 237 to 239. -/
def fatalMessage (failedPosts : List PlatformPostResult) : String :=
  "Failed to post to all platforms: " ++
    joinComma (failedPosts.map fun r => r.error.getD "")

/-- The summary message at lines 225 to 228. -/
def responseMessage (successCount failedCount n : Nat) : String :=
  if failedCount == 0 then
    s!"Successfully posted to all {successCount} platform(s)!"
  else
    s!"Posted to {successCount}/{n} platform(s). {failedCount} failed."

/-- The state resets at lines 36 to 43, performed at the start of every
submission, ending with the creation of the abort controller. -/
def initEvents (req : MultiPlatformPostRequest) : List Event :=
  [Event.setIsPosting true, Event.setPostError none, Event.setPostSuccess false,
   Event.setUploadProgress 0, Event.setCurrentPlatforms req.platforms,
   Event.setResults [], Event.setAbortController true]

/-- The finally block at lines 273 to 277. -/
def finallyEvents : List Event :=
  [Event.setIsPosting false, Event.setUploadProgress 0,
   Event.setAbortController false]

/-- The outer catch at lines 247 to 260: record the error, notify, schedule
the 10000 ms auto-clear. -/
def catchEvents (errorMessage : String) : List Event :=
  [Event.setPostError (some errorMessage), Event.onErrorCall errorMessage,
   Event.scheduleTimeout 10000]

/-- The failure response built by the outer catch (lines 262 to 270): one
failed entry per originally requested platform, all carrying the top-level
error message. -/
def failedResponse (req : MultiPlatformPostRequest) (errorMessage : String) :
    MultiPlatformPostResponse :=
  { success := false,
    results := req.platforms.map fun platform =>
      { platform := platform, success := false, data := none,
        error := some errorMessage },
    message := errorMessage }

/-- submitMultiPlatformPost (lines 33 to 278): returns the settled response
together with the ordered trace of observable events of the whole run. -/
def submitMultiPlatformPost (options : UseMultiPlatformPostOptions)
    (req : MultiPlatformPostRequest) (env : Nat → IterEnv) :
    MultiPlatformPostResponse × List Event :=
  match validationError req with
  | some msg =>
      (failedResponse req msg, initEvents req ++ catchEvents msg ++ finallyEvents)
  | none =>
      let n := req.platforms.length
      let delay := effectiveDelay options
      let run := runLoop delay n req.content req.platformSpecific env 0 req.platforms []
      let results := run.1
      let successfulPosts := results.filter fun r => r.success
      let failedPosts := results.filter fun r => !r.success
      let response : MultiPlatformPostResponse :=
        { success := failedPosts.length == 0,
          results := results.map fun r =>
            { platform := r.platform, success := r.success, data := r.data,
              error := r.error },
          message := responseMessage successfulPosts.length failedPosts.length n }
      let mainEvents := initEvents req ++ [Event.setUploadProgress 10] ++
        run.2 ++ [Event.setUploadProgress 100]
      if response.success then
        (response,
          mainEvents ++ [Event.setPostSuccess true, Event.onSuccessCall,
            Event.scheduleTimeout 5000] ++ finallyEvents)
      else if 0 < successfulPosts.length then
        (response,
          mainEvents ++ [Event.onPartialSuccessCall results,
            Event.scheduleTimeout 5000] ++ finallyEvents)
      else
        let msg := fatalMessage failedPosts
        (failedResponse req msg, mainEvents ++ catchEvents msg ++ finallyEvents)

/-- The published uploadProgress values of a trace, in order. -/
def progressValues (evs : List Event) : List Nat :=
  evs.filterMap fun e =>
    match e with
    | Event.setUploadProgress v => some v
    | _ => none

/-- The inter-request delays awaited in a trace, in order. -/
def delayValues (evs : List Event) : List Nat :=
  evs.filterMap fun e =>
    match e with
    | Event.delayWait ms => some ms
    | _ => none

/-- How many adapter invocations (network calls) a trace performs. -/
def apiCallCount (evs : List Event) : Nat :=
  (evs.filter fun e =>
    match e with
    | Event.apiCall _ => true
    | _ => false).length

/-- The hook states at which the run is suspended on an await, i.e. the
states another caller would observe when invoking cancelPosting mid-run. -/
def suspensionStates (s : HookState) : List Event → List HookState
  | [] => []
  | e :: evs =>
      let rest := suspensionStates (applyEvent s e) evs
      if e.isSuspension then s :: rest else rest

/-- For each suspension point of a trace, the final hook state reached when
cancelPosting runs at that point and the remainder of the run then resolves
and keeps executing (the source loop never consults the abort signal, so the
remaining events are exactly the trace's remaining events). -/
def cancelOutcomes (s : HookState) : List Event → List HookState
  | [] => []
  | e :: evs =>
      let rest := cancelOutcomes (applyEvent s e) evs
      if e.isSuspension then applyEvents (cancelPosting s) (e :: evs) :: rest
      else rest

/-! ### Shape of the accumulated results -/

/-- The results the dispatch loop records for the remaining platforms
starting at index i, one per platform in order. -/
def loopResults (content : PostContent) (ps : PlatformSpecificOptions)
    (env : Nat → IterEnv) : Nat → List Platform → List PlatformPostResult
  | _, [] => []
  | i, platform :: rest =>
      iterResult content ps (env i) platform ::
        loopResults content ps env (i + 1) rest

theorem attempt_ok_platform {c : PostContent} {ps : PlatformSpecificOptions}
    {e : IterEnv} {p : Platform} {r : PlatformPostResult}
    (h : (attemptOnePlatform c ps e p).2 = Except.ok r) : r.platform = p := by
  cases p <;> simp only [attemptOnePlatform] at h <;>
    (repeat' split at h) <;> simp_all [platformResult] <;> subst h <;> rfl

theorem iterResult_platform (c : PostContent) (ps : PlatformSpecificOptions)
    (e : IterEnv) (p : Platform) : (iterResult c ps e p).platform = p := by
  unfold iterResult
  cases h : (attemptOnePlatform c ps e p).2 with
  | ok r => exact attempt_ok_platform h
  | error t => rfl

theorem loopIter_fst (delay n : Nat) (c : PostContent)
    (ps : PlatformSpecificOptions) (e : IterEnv) (i : Nat) (p : Platform)
    (acc : List PlatformPostResult) :
    (loopIter delay n c ps e i p acc).1 = iterResult c ps e p := by
  cases h : (attemptOnePlatform c ps e p).2 <;> simp [loopIter, iterResult, h]

theorem runLoop_fst (delay n : Nat) (content : PostContent)
    (ps : PlatformSpecificOptions) (env : Nat → IterEnv) :
    ∀ (rest : List Platform) (i : Nat) (acc : List PlatformPostResult),
      (runLoop delay n content ps env i rest acc).1 =
        acc ++ loopResults content ps env i rest := by
  intro rest
  induction rest with
  | nil => intro i acc; simp [runLoop, loopResults]
  | cons p rest ih =>
      intro i acc
      simp [runLoop, loopResults, loopIter_fst, ih]

theorem loopResults_length (content : PostContent)
    (ps : PlatformSpecificOptions) (env : Nat → IterEnv) :
    ∀ (rest : List Platform) (i : Nat),
      (loopResults content ps env i rest).length = rest.length := by
  intro rest
  induction rest with
  | nil => intro i; rfl
  | cons p rest ih => intro i; simp [loopResults, ih]

theorem loopResults_get (content : PostContent)
    (ps : PlatformSpecificOptions) (env : Nat → IterEnv) :
    ∀ (rest : List Platform) (i j : Nat),
      Option.map PlatformPostResult.platform
        (loopResults content ps env i rest)[j]? = rest[j]? := by
  intro rest
  induction rest with
  | nil => intro i j; rfl
  | cons p rest ih =>
      intro i j
      cases j with
      | zero => simp [loopResults, iterResult_platform]
      | succ j => simp [loopResults, ih]

/-- The clone at lines 219 to 224 copies every field, so it is the
identity. -/
theorem results_clone_id (rs : List PlatformPostResult) :
    (rs.map fun r =>
      ({ platform := r.platform, success := r.success, data := r.data,
         error := r.error } : PlatformPostResult)) = rs :=
  List.map_id rs

/-- A valid request (non-empty selection, truthy title wherever substack is
selected) passes validation. -/
theorem validationError_none {req : MultiPlatformPostRequest}
    (hne : req.platforms ≠ [])
    (hsub : ∀ p ∈ req.platforms, p = Platform.substack →
      substackTitleOk req.platformSpecific = true) :
    validationError req = none := by
  unfold validationError
  rw [if_neg, if_neg]
  · simp only [List.any_eq_true, not_exists, not_and]
    rintro p hp
    simp only [Bool.and_eq_true, beq_iff_eq, Bool.not_eq_true']
    rintro ⟨hps, hti⟩
    rw [hsub p hp hps] at hti
    cases hti
  · simp [List.length_eq_zero, hne]

/-- Whatever the run's outcome, the settled response has one result per
requested platform, in the requested order. -/
theorem submit_results_shape (options : UseMultiPlatformPostOptions)
    (req : MultiPlatformPostRequest) (env : Nat → IterEnv)
    (hval : validationError req = none) :
    (submitMultiPlatformPost options req env).1.results.length =
      req.platforms.length ∧
    ∀ i : Nat, Option.map PlatformPostResult.platform
        (submitMultiPlatformPost options req env).1.results[i]? =
      req.platforms[i]? := by
  unfold submitMultiPlatformPost
  rw [hval]
  simp only [runLoop_fst, List.nil_append, results_clone_id]
  split
  · constructor
    · simp [loopResults_length]
    · intro i; simp [loopResults_get]
  · split
    · constructor
      · simp [loopResults_length]
      · intro i; simp [loopResults_get]
    · constructor
      · simp [failedResponse]
      · intro i
        simp only [failedResponse, List.getElem?_map]
        cases req.platforms[i]? <;> rfl

/-! ### Concrete scenarios used by closed theorems and witnesses -/

/-- Hook instantiated with no options (default delay). -/
def noOptions : UseMultiPlatformPostOptions := { requestDelay := none }

/-- The request of the worked example: platforms [x, linkedin], text "hi",
no platform-specific options. -/
def c4req : MultiPlatformPostRequest :=
  { platforms := [Platform.x, Platform.linkedin],
    content := { text := "hi", media := none, mediaType := MediaType.TEXT },
    platformSpecific := { linkedin := none, substack := none } }

/-- The X adapter's successful response in the worked example. -/
def c4xResponse : ApiResponse := { success := true, message := none }

/-- The LinkedIn adapter's failure response in the worked example. -/
def c4liResponse : ApiResponse := { success := false, message := some "rate limited" }

/-- Environment for the worked example: iteration 0 (x) succeeds, iteration
1 (linkedin) reports failure with message rate limited. -/
def c4env : Nat → IterEnv
  | 0 => { upload := .ok { success := true, assetUrn := none, message := none },
           post := .ok c4xResponse, sessionId := none }
  | _ => { upload := .ok { success := true, assetUrn := none, message := none },
           post := .ok c4liResponse, sessionId := none }

/-- Platform-specific options holding a truthy Substack title. -/
def someTitleSpec : PlatformSpecificOptions :=
  { linkedin := none,
    substack := some { title := some "T", subtitle := none, isDraft := none } }

/-- A request selecting substack then x, with a valid Substack title. -/
def substackFirstReq : MultiPlatformPostRequest :=
  { platforms := [Platform.substack, Platform.x],
    content := { text := "hi", media := none, mediaType := MediaType.TEXT },
    platformSpecific := someTitleSpec }

/-- Environment whose Substack session is missing (every substack attempt
throws) while every post call succeeds. -/
def noSessionEnv : Nat → IterEnv := fun _ =>
  { upload := .ok { success := true, assetUrn := some "urn", message := none },
    post := .ok { success := true, message := none }, sessionId := none }

/-- A three-platform request with a valid Substack title. -/
def threePlatformReq : MultiPlatformPostRequest :=
  { platforms := [Platform.linkedin, Platform.x, Platform.substack],
    content := { text := "hi", media := none, mediaType := MediaType.TEXT },
    platformSpecific := someTitleSpec }

/-- Environment in which every call returns success and the Substack session
exists. -/
def allOkEnv : Nat → IterEnv := fun _ =>
  { upload := .ok { success := true, assetUrn := some "urn", message := none },
    post := .ok { success := true, message := none }, sessionId := some "sess" }

/-- Environment in which every post call returns a failure response with
message boom. -/
def allFailEnv : Nat → IterEnv := fun _ =>
  { upload := .ok { success := true, assetUrn := none, message := none },
    post := .ok { success := false, message := some "boom" }, sessionId := some "sess" }

/-- A request with an empty platform selection. -/
def emptyReq : MultiPlatformPostRequest :=
  { platforms := [],
    content := { text := "hi", media := none, mediaType := MediaType.TEXT },
    platformSpecific := { linkedin := none, substack := none } }

/-! ### C1 -/

/-- C1: for every request whose platforms list is non-empty and whose
selected platforms all have their mandatory platform-specific fields (a
truthy Substack title whenever substack is selected), the response returned
when submitMultiPlatformPost settles has exactly one PlatformPostResult per
requested platform, and the platform of the i-th result equals the i-th
requested platform. -/
theorem C1_one_result_per_platform (options : UseMultiPlatformPostOptions)
    (req : MultiPlatformPostRequest) (env : Nat → IterEnv)
    (hne : req.platforms ≠ [])
    (hsub : ∀ p ∈ req.platforms, p = Platform.substack →
      substackTitleOk req.platformSpecific = true) :
    (submitMultiPlatformPost options req env).1.results.length =
      req.platforms.length ∧
    ∀ i : Nat, Option.map PlatformPostResult.platform
        (submitMultiPlatformPost options req env).1.results[i]? =
      req.platforms[i]? :=
  submit_results_shape options req env (validationError_none hne hsub)

/-- Witness for C1 at the worked example. -/
theorem C1_one_result_per_platform_witness :
    c4req.platforms ≠ [] ∧
    ((submitMultiPlatformPost noOptions c4req c4env).1.results.length =
      c4req.platforms.length ∧
    ∀ i : Nat, Option.map PlatformPostResult.platform
        (submitMultiPlatformPost noOptions c4req c4env).1.results[i]? =
      c4req.platforms[i]?) :=
  ⟨by decide,
   C1_one_result_per_platform noOptions c4req c4env (by decide) (by decide)⟩

/-! ### C2 -/

/-- C2: a request with an empty platform list, or selecting substack without
a truthy platformSpecific.substack.title, fails validation before any
adapter is invoked (no adapter call appears in the trace, and every
published progress value is the initial 0), and the settled response has
success false with one failed entry per originally requested platform, all
carrying the validation error message. -/
theorem C2_validation_failure (options : UseMultiPlatformPostOptions)
    (req : MultiPlatformPostRequest) (env : Nat → IterEnv)
    (h : req.platforms = [] ∨ (Platform.substack ∈ req.platforms ∧
      substackTitleOk req.platformSpecific = false)) :
    ∃ msg, validationError req = some msg ∧
      (submitMultiPlatformPost options req env).1 = failedResponse req msg ∧
      (submitMultiPlatformPost options req env).1.success = false ∧
      (submitMultiPlatformPost options req env).1.results =
        req.platforms.map (fun platform =>
          { platform := platform, success := false, data := none,
            error := some msg }) ∧
      apiCallCount (submitMultiPlatformPost options req env).2 = 0 ∧
      ∀ v, Event.setUploadProgress v ∈ (submitMultiPlatformPost options req env).2 →
        v = 0 := by
  have hv : ∃ msg, validationError req = some msg := by
    rcases h with h | ⟨hmem, hfalse⟩
    · refine ⟨"At least one platform must be selected", ?_⟩
      simp [validationError, h]
    · refine ⟨"Substack posts require a title", ?_⟩
      unfold validationError
      rw [if_neg, if_pos]
      · exact List.any_eq_true.mpr ⟨Platform.substack, hmem, by simp [hfalse]⟩
      · simp only [beq_iff_eq, List.length_eq_zero]
        intro hnil
        rw [hnil] at hmem
        cases hmem
  rcases hv with ⟨msg, hmsg⟩
  refine ⟨msg, hmsg, ?_⟩
  unfold submitMultiPlatformPost
  rw [hmsg]
  refine ⟨rfl, rfl, rfl, ?_, ?_⟩
  · simp [apiCallCount, initEvents, catchEvents, finallyEvents]
  · intro v hm
    simp only [initEvents, catchEvents, finallyEvents, List.append_assoc,
      List.mem_append, List.mem_cons, List.not_mem_nil, or_false] at hm
    rcases hm with hm | hm <;> simp_all

/-- Witness for C2 at the empty-selection request. -/
theorem C2_validation_failure_witness :
    emptyReq.platforms = [] ∧
    ∃ msg, validationError emptyReq = some msg ∧
      (submitMultiPlatformPost noOptions emptyReq allOkEnv).1 =
        failedResponse emptyReq msg ∧
      (submitMultiPlatformPost noOptions emptyReq allOkEnv).1.success = false ∧
      (submitMultiPlatformPost noOptions emptyReq allOkEnv).1.results =
        emptyReq.platforms.map (fun platform =>
          { platform := platform, success := false, data := none,
            error := some msg }) ∧
      apiCallCount (submitMultiPlatformPost noOptions emptyReq allOkEnv).2 = 0 ∧
      ∀ v, Event.setUploadProgress v ∈
          (submitMultiPlatformPost noOptions emptyReq allOkEnv).2 → v = 0 :=
  ⟨rfl, C2_validation_failure noOptions emptyReq allOkEnv (Or.inl rfl)⟩

/-! ### C4 -/

/-- C4: on the worked example (platforms [x, linkedin], X succeeds, LinkedIn
fails with rate limited) the settled response lists the X success and the
LinkedIn failure in order, has success false, message Posted to 1/2
platform(s). 1 failed., and its success flag is true exactly when no result
failed. -/
theorem C4_worked_example :
    (submitMultiPlatformPost noOptions c4req c4env).1 =
      { success := false,
        results := [
          { platform := Platform.x, success := true, data := some c4xResponse,
            error := none },
          { platform := Platform.linkedin, success := false,
            data := some c4liResponse, error := some "rate limited" }],
        message := "Posted to 1/2 platform(s). 1 failed." } ∧
    ((submitMultiPlatformPost noOptions c4req c4env).1.success = true ↔
      ((submitMultiPlatformPost noOptions c4req c4env).1.results.filter
        fun r => !r.success).length = 0) := by
  constructor
  · rfl
  · decide

/-! ### C3 -/

/-- The results the dispatch loop of a validated run accumulates. -/
def loopResultsOf (options : UseMultiPlatformPostOptions)
    (req : MultiPlatformPostRequest) (env : Nat → IterEnv) :
    List PlatformPostResult :=
  (runLoop (effectiveDelay options) req.platforms.length req.content
    req.platformSpecific env 0 req.platforms []).1

/-- The events the dispatch loop of a validated run performs. -/
def loopEventsOf (options : UseMultiPlatformPostOptions)
    (req : MultiPlatformPostRequest) (env : Nat → IterEnv) : List Event :=
  (runLoop (effectiveDelay options) req.platforms.length req.content
    req.platformSpecific env 0 req.platforms []).2

theorem validationError_none_platforms_ne {req : MultiPlatformPostRequest}
    (hval : validationError req = none) : req.platforms ≠ [] := by
  intro hnil
  unfold validationError at hval
  rw [hnil] at hval
  simp at hval

/-- Every element of a list is a contiguous piece of its comma join. -/
theorem joinComma_infix (l : List String) (s : String) (hs : s ∈ l) :
    ∃ pre post, joinComma l = pre ++ s ++ post := by
  induction l with
  | nil => cases hs
  | cons a l ih =>
      rcases List.mem_cons.mp hs with rfl | hmem
      · cases l with
        | nil =>
            exact ⟨"", "", by
              simp [joinComma, String.empty_append, String.append_empty]⟩
        | cons b l2 =>
            refine ⟨"", ", " ++ joinComma (b :: l2), ?_⟩
            show joinComma (s :: b :: l2) = "" ++ s ++ (", " ++ joinComma (b :: l2))
            rw [String.empty_append, ← String.append_assoc]
            rfl
      · rcases ih hmem with ⟨pre, post, hj⟩
        cases l with
        | nil => cases hmem
        | cons b l2 =>
            refine ⟨a ++ ", " ++ pre, post, ?_⟩
            show joinComma (a :: b :: l2) = a ++ ", " ++ pre ++ s ++ post
            rw [show joinComma (a :: b :: l2) = a ++ ", " ++ joinComma (b :: l2)
              from rfl, hj]
            simp [String.append_assoc]

/-- The synthetic total-failure message contains every recorded failure
message as a contiguous piece. -/
theorem fatalMessage_infix (rs : List PlatformPostResult)
    (r : PlatformPostResult) (hr : r ∈ rs) :
    ∃ pre post, fatalMessage rs = pre ++ r.error.getD "" ++ post := by
  rcases joinComma_infix (rs.map fun q => q.error.getD "") (r.error.getD "")
      (List.mem_map_of_mem _ hr) with ⟨pre, post, hj⟩
  refine ⟨"Failed to post to all platforms: " ++ pre, post, ?_⟩
  unfold fatalMessage
  rw [hj]
  simp [String.append_assoc]

/-- When a validated run records only failures, submitMultiPlatformPost
takes the synthetic total-failure throw and the outer catch. -/
theorem submit_total_failure (options : UseMultiPlatformPostOptions)
    (req : MultiPlatformPostRequest) (env : Nat → IterEnv)
    (hval : validationError req = none)
    (hfail : ∀ r ∈ loopResultsOf options req env, r.success = false) :
    submitMultiPlatformPost options req env =
      (failedResponse req (fatalMessage (loopResultsOf options req env)),
       initEvents req ++ [Event.setUploadProgress 10] ++
         loopEventsOf options req env ++ [Event.setUploadProgress 100] ++
         catchEvents (fatalMessage (loopResultsOf options req env)) ++
         finallyEvents) := by
  have hne := validationError_none_platforms_ne hval
  have hfilter_fail : (loopResultsOf options req env).filter
      (fun r => !r.success) = loopResultsOf options req env :=
    List.filter_eq_self.mpr (fun r hr => by simp [hfail r hr])
  have hfilter_succ : (loopResultsOf options req env).filter
      (fun r => r.success) = [] :=
    List.filter_eq_nil.mpr (fun r hr => by simp [hfail r hr])
  have hlen : (loopResultsOf options req env).length = req.platforms.length := by
    unfold loopResultsOf
    rw [runLoop_fst]
    simp [loopResults_length]
  have hlen_ne : ((loopResultsOf options req env).length == 0) = false := by
    rw [hlen]
    simp [List.length_eq_zero, hne]
  have h1 : (runLoop (effectiveDelay options) req.platforms.length req.content
      req.platformSpecific env 0 req.platforms []).1 =
      loopResultsOf options req env := rfl
  have h2 : (runLoop (effectiveDelay options) req.platforms.length req.content
      req.platformSpecific env 0 req.platforms []).2 =
      loopEventsOf options req env := rfl
  unfold submitMultiPlatformPost
  rw [hval]
  simp only [h1, h2]
  rw [hfilter_fail, hfilter_succ, hlen_ne]
  simp [List.append_assoc]

/-- C3: for every validated run (n >= 1 platforms) in which zero platforms
succeed, a fatal error is raised whose message contains every platform's
failure message joined together (the error is recorded and notified), and
the terminal response has success false with one result per requested
platform and the fatal message. -/
theorem C3_zero_successes_fatal (options : UseMultiPlatformPostOptions)
    (req : MultiPlatformPostRequest) (env : Nat → IterEnv)
    (hval : validationError req = none)
    (hfail : ∀ r ∈ loopResultsOf options req env, r.success = false) :
    1 ≤ req.platforms.length ∧
    Event.setPostError (some (fatalMessage (loopResultsOf options req env))) ∈
      (submitMultiPlatformPost options req env).2 ∧
    Event.onErrorCall (fatalMessage (loopResultsOf options req env)) ∈
      (submitMultiPlatformPost options req env).2 ∧
    (∀ r ∈ loopResultsOf options req env, ∃ pre post,
      fatalMessage (loopResultsOf options req env) =
        pre ++ r.error.getD "" ++ post) ∧
    (submitMultiPlatformPost options req env).1.success = false ∧
    (submitMultiPlatformPost options req env).1.results.length =
      req.platforms.length ∧
    (submitMultiPlatformPost options req env).1.message =
      fatalMessage (loopResultsOf options req env) := by
  have hne := validationError_none_platforms_ne hval
  have hs := submit_total_failure options req env hval hfail
  refine ⟨?_, ?_, ?_, ?_, ?_, ?_, ?_⟩
  · exact Nat.one_le_iff_ne_zero.mpr (by simpa [List.length_eq_zero] using hne)
  · rw [hs]; simp [catchEvents]
  · rw [hs]; simp [catchEvents]
  · exact fun r hr => fatalMessage_infix _ r hr
  · rw [hs]; rfl
  · rw [hs]; simp [failedResponse]
  · rw [hs]; rfl

/-- Witness for C3: both platforms of the worked example report failure. -/
theorem C3_zero_successes_fatal_witness :
    validationError c4req = none ∧
    (∀ r ∈ loopResultsOf noOptions c4req allFailEnv, r.success = false) ∧
    (1 ≤ c4req.platforms.length ∧
    Event.setPostError (some (fatalMessage (loopResultsOf noOptions c4req allFailEnv))) ∈
      (submitMultiPlatformPost noOptions c4req allFailEnv).2 ∧
    Event.onErrorCall (fatalMessage (loopResultsOf noOptions c4req allFailEnv)) ∈
      (submitMultiPlatformPost noOptions c4req allFailEnv).2 ∧
    (∀ r ∈ loopResultsOf noOptions c4req allFailEnv, ∃ pre post,
      fatalMessage (loopResultsOf noOptions c4req allFailEnv) =
        pre ++ r.error.getD "" ++ post) ∧
    (submitMultiPlatformPost noOptions c4req allFailEnv).1.success = false ∧
    (submitMultiPlatformPost noOptions c4req allFailEnv).1.results.length =
      c4req.platforms.length ∧
    (submitMultiPlatformPost noOptions c4req allFailEnv).1.message =
      fatalMessage (loopResultsOf noOptions c4req allFailEnv)) :=
  ⟨by decide, by decide,
   C3_zero_successes_fatal noOptions c4req allFailEnv (by decide) (by decide)⟩

/-! ### C10 -/

/-- The adapter-call events of one attempt are apiCall events of that same
platform (none, one, or two of them). -/
theorem attempt_events_replicate (c : PostContent) (ps : PlatformSpecificOptions)
    (v : IterEnv) (p : Platform) :
    ∃ k, (attemptOnePlatform c ps v p).1 = List.replicate k (Event.apiCall p) := by
  cases p <;> simp only [attemptOnePlatform] <;> (repeat' split) <;>
    first
      | exact ⟨0, rfl⟩
      | exact ⟨1, rfl⟩
      | exact ⟨2, rfl⟩

theorem delayValues_append (l1 l2 : List Event) :
    delayValues (l1 ++ l2) = delayValues l1 ++ delayValues l2 := by
  simp [delayValues, List.filterMap_append]

theorem loopIter_delayValues (delay n : Nat) (c : PostContent)
    (ps : PlatformSpecificOptions) (v : IterEnv) (i : Nat) (p : Platform)
    (acc : List PlatformPostResult) :
    delayValues (loopIter delay n c ps v i p acc).2 =
      if 0 < i then [delay] else [] := by
  rcases attempt_events_replicate c ps v p with ⟨k, hk⟩
  have hrep : delayValues (List.replicate k (Event.apiCall p)) = [] :=
    List.filterMap_eq_nil.mpr (fun e he => by
      rw [List.eq_of_mem_replicate he])
  have hpre : delayValues (if 0 < i then [Event.delayWait delay] else []) =
      if 0 < i then [delay] else [] := by
    split <;> rfl
  have hpartial : ∀ (b : Bool) (rs : List PlatformPostResult),
      delayValues (if b = true then [Event.onPartialSuccessCall rs] else []) = [] := by
    intro b rs
    split <;> rfl
  cases h : (attemptOnePlatform c ps v p).2 with
  | ok r =>
      simp only [loopIter, h, hk, delayValues_append, hrep, hpre, hpartial,
        List.append_nil, List.nil_append]
      split <;> rfl
  | error t =>
      simp only [loopIter, h, hk, delayValues_append, hrep, hpre,
        List.append_nil, List.nil_append]
      split <;> rfl

theorem runLoop_delayValues (delay n : Nat) (c : PostContent)
    (ps : PlatformSpecificOptions) (env : Nat → IterEnv) :
    ∀ (rest : List Platform) (i : Nat) (acc : List PlatformPostResult),
      delayValues (runLoop delay n c ps env i rest acc).2 =
        if 0 < i then List.replicate rest.length delay
        else List.replicate (rest.length - 1) delay := by
  intro rest
  induction rest with
  | nil => intro i acc; cases i <;> simp [runLoop, delayValues]
  | cons p rest ih =>
      intro i acc
      have hstep := loopIter_delayValues delay n c ps (env i) i p acc
      have htail := ih (i + 1) (acc ++ [(loopIter delay n c ps (env i) i p acc).1])
      rcases Nat.eq_zero_or_pos i with hi | hi <;>
        simp_all [runLoop, delayValues, List.filterMap_append,
          List.replicate_succ]

/-- The only delays of a whole run are the dispatch loop's delays. -/
theorem submit_delayValues (options : UseMultiPlatformPostOptions)
    (req : MultiPlatformPostRequest) (env : Nat → IterEnv)
    (hval : validationError req = none) :
    delayValues (submitMultiPlatformPost options req env).2 =
      delayValues (loopEventsOf options req env) := by
  have h2 : (runLoop (effectiveDelay options) req.platforms.length req.content
      req.platformSpecific env 0 req.platforms []).2 =
      loopEventsOf options req env := rfl
  unfold submitMultiPlatformPost
  rw [hval]
  simp only [h2]
  split
  · simp [delayValues, List.filterMap_append, initEvents, finallyEvents]
  · split <;>
      simp [delayValues, List.filterMap_append, initEvents, finallyEvents,
        catchEvents]

/-- C10: with requestDelay explicitly configured as 0, the loop still waits
the 2000 default before every platform after the first: a validated run of
n >= 2 platforms awaits exactly n - 1 delays, each of 2000. -/
theorem C10_zero_delay_uses_default (options : UseMultiPlatformPostOptions)
    (req : MultiPlatformPostRequest) (env : Nat → IterEnv)
    (hopt : options.requestDelay = some 0)
    (hval : validationError req = none)
    (hlen : 2 ≤ req.platforms.length) :
    effectiveDelay options = 2000 ∧
    delayValues (submitMultiPlatformPost options req env).2 =
      List.replicate (req.platforms.length - 1) 2000 ∧
    delayValues (submitMultiPlatformPost options req env).2 ≠ [] := by
  have hd : effectiveDelay options = 2000 := by simp [effectiveDelay, hopt]
  have hmain : delayValues (submitMultiPlatformPost options req env).2 =
      List.replicate (req.platforms.length - 1) 2000 := by
    rw [submit_delayValues options req env hval]
    unfold loopEventsOf
    rw [runLoop_delayValues, hd]
    simp
  refine ⟨hd, hmain, ?_⟩
  rw [hmain]
  have : 1 ≤ req.platforms.length - 1 := by omega
  simp [List.replicate, Nat.le_iff_lt_or_eq] at this ⊢
  omega

/-- Hook options explicitly configuring a zero inter-request delay. -/
def zeroDelayOptions : UseMultiPlatformPostOptions := { requestDelay := some 0 }

/-- Witness for C10 at a two-platform run with requestDelay 0. -/
theorem C10_zero_delay_uses_default_witness :
    zeroDelayOptions.requestDelay = some 0 ∧
    validationError c4req = none ∧
    2 ≤ c4req.platforms.length ∧
    (effectiveDelay zeroDelayOptions = 2000 ∧
     delayValues (submitMultiPlatformPost zeroDelayOptions c4req c4env).2 =
       List.replicate (c4req.platforms.length - 1) 2000 ∧
     delayValues (submitMultiPlatformPost zeroDelayOptions c4req c4env).2 ≠ []) :=
  ⟨rfl, by decide, by decide,
   C10_zero_delay_uses_default zeroDelayOptions c4req c4env rfl (by decide)
     (by decide)⟩

/-! ### C6 -/

theorem loopResults_get_eq (content : PostContent)
    (ps : PlatformSpecificOptions) (env : Nat → IterEnv) :
    ∀ (rest : List Platform) (i j : Nat) (p : Platform), rest[j]? = some p →
      (loopResults content ps env i rest)[j]? =
        some (iterResult content ps (env (i + j)) p) := by
  intro rest
  induction rest with
  | nil => intro i j p hp; cases hp
  | cons a rest ih =>
      intro i j p hp
      cases j with
      | zero =>
          simp only [List.getElem?_cons_zero, Option.some.injEq] at hp
          simp [loopResults, hp]
      | succ j =>
          simp only [List.getElem?_cons_succ] at hp
          have := ih (i + 1) j p hp
          simpa [loopResults, Nat.add_assoc, Nat.add_comm 1 j] using this

/-- C6: any value thrown while building or sending one platform's request is
caught locally: that platform gets a failed result carrying the thrown
Error's message (or the generic fallback for a non-Error value), every other
platform is still dispatched with its own attempt, and in particular a
failed media upload, a missing Substack session and an unsupported platform
tag all throw. -/
theorem C6_exception_caught_locally (options : UseMultiPlatformPostOptions)
    (req : MultiPlatformPostRequest) (env : Nat → IterEnv)
    (hval : validationError req = none)
    (i : Nat) (p : Platform) (t : Thrown)
    (hp : req.platforms[i]? = some p)
    (ht : (attemptOnePlatform req.content req.platformSpecific (env i) p).2 =
      Except.error t) :
    (loopResultsOf options req env).length = req.platforms.length ∧
    (loopResultsOf options req env)[i]? = some
      { platform := p, success := false, data := none,
        error := some (thrownMessage t p) } ∧
    (∀ j q, req.platforms[j]? = some q →
      (loopResultsOf options req env)[j]? =
        some (iterResult req.content req.platformSpecific (env j) q)) ∧
    (∀ j : Nat, Option.map PlatformPostResult.platform
      (loopResultsOf options req env)[j]? = req.platforms[j]?) ∧
    (∀ tag, (attemptOnePlatform req.content req.platformSpecific (env i)
        (Platform.other tag)).2 =
      Except.error (Thrown.error ("Unsupported platform: " ++ tag))) ∧
    (∀ v : IterEnv, substackTitleOk req.platformSpecific = true →
      strTruthy v.sessionId = false →
      (attemptOnePlatform req.content req.platformSpecific v Platform.substack).2 =
        Except.error (Thrown.error "Substack session not found")) ∧
    (∀ (v : IterEnv) (ur : UploadResponse), needsMediaUpload req.content = true →
      v.upload = Except.ok ur → (ur.success && strTruthy ur.assetUrn) = false →
      (attemptOnePlatform req.content req.platformSpecific v Platform.linkedin).2 =
        Except.error (Thrown.error (strOr ur.message "Failed to upload media"))) := by
  have hshape : loopResultsOf options req env =
      loopResults req.content req.platformSpecific env 0 req.platforms := by
    unfold loopResultsOf
    rw [runLoop_fst]
    rfl
  refine ⟨?_, ?_, ?_, ?_, ?_, ?_, ?_⟩
  · rw [hshape]; simp [loopResults_length]
  · rw [hshape, loopResults_get_eq req.content req.platformSpecific env
      req.platforms 0 i p hp]
    simp [iterResult, ht, iterErrorResult]
  · intro j q hq
    rw [hshape, loopResults_get_eq req.content req.platformSpecific env
      req.platforms 0 j q hq]
    simp
  · intro j; rw [hshape]; simp [loopResults_get]
  · intro tag; rfl
  · intro v hti hsess
    simp [attemptOnePlatform, hti, hsess]
  · intro v ur hmedia hup hfail
    simp [attemptOnePlatform, hmedia, hup, hfail]

/-- Witness for C6: substack throws for a missing session at index 0 while x
at index 1 still runs. -/
theorem C6_exception_caught_locally_witness :
    validationError substackFirstReq = none ∧
    substackFirstReq.platforms[0]? = some Platform.substack ∧
    (attemptOnePlatform substackFirstReq.content substackFirstReq.platformSpecific
      (noSessionEnv 0) Platform.substack).2 =
      Except.error (Thrown.error "Substack session not found") ∧
    ((loopResultsOf noOptions substackFirstReq noSessionEnv).length =
      substackFirstReq.platforms.length ∧
    (loopResultsOf noOptions substackFirstReq noSessionEnv)[0]? = some
      { platform := Platform.substack, success := false, data := none,
        error := some (thrownMessage (Thrown.error "Substack session not found")
          Platform.substack) } ∧
    (∀ j q, substackFirstReq.platforms[j]? = some q →
      (loopResultsOf noOptions substackFirstReq noSessionEnv)[j]? =
        some (iterResult substackFirstReq.content
          substackFirstReq.platformSpecific (noSessionEnv j) q)) ∧
    (∀ j : Nat, Option.map PlatformPostResult.platform
      (loopResultsOf noOptions substackFirstReq noSessionEnv)[j]? =
      substackFirstReq.platforms[j]?) ∧
    (∀ tag, (attemptOnePlatform substackFirstReq.content
        substackFirstReq.platformSpecific (noSessionEnv 0)
        (Platform.other tag)).2 =
      Except.error (Thrown.error ("Unsupported platform: " ++ tag))) ∧
    (∀ v : IterEnv, substackTitleOk substackFirstReq.platformSpecific = true →
      strTruthy v.sessionId = false →
      (attemptOnePlatform substackFirstReq.content
        substackFirstReq.platformSpecific v Platform.substack).2 =
        Except.error (Thrown.error "Substack session not found")) ∧
    (∀ (v : IterEnv) (ur : UploadResponse),
      needsMediaUpload substackFirstReq.content = true →
      v.upload = Except.ok ur → (ur.success && strTruthy ur.assetUrn) = false →
      (attemptOnePlatform substackFirstReq.content
        substackFirstReq.platformSpecific v Platform.linkedin).2 =
        Except.error (Thrown.error (strOr ur.message "Failed to upload media")))) :=
  ⟨by decide, by decide, rfl,
   C6_exception_caught_locally noOptions substackFirstReq noSessionEnv
     (by decide) 0 Platform.substack (Thrown.error "Substack session not found")
     (by decide) rfl⟩

/-! ### Progress publications of the dispatch loop -/

theorem progressValues_append (l1 l2 : List Event) :
    progressValues (l1 ++ l2) = progressValues l1 ++ progressValues l2 := by
  simp [progressValues, List.filterMap_append]

theorem loopIter_progressValues_ok (delay n : Nat) (c : PostContent)
    (ps : PlatformSpecificOptions) (v : IterEnv) (i : Nat) (p : Platform)
    (acc : List PlatformPostResult) (r : PlatformPostResult)
    (h : (attemptOnePlatform c ps v p).2 = Except.ok r) :
    progressValues (loopIter delay n c ps v i p acc).2 =
      [jsRound ((acc.length + 1) * 90) n + 10] := by
  rcases attempt_events_replicate c ps v p with ⟨k, hk⟩
  have hrep : progressValues (List.replicate k (Event.apiCall p)) = [] :=
    List.filterMap_eq_nil.mpr (fun e he => by
      rw [List.eq_of_mem_replicate he])
  have hpre : progressValues (if 0 < i then [Event.delayWait delay] else []) = [] := by
    split <;> rfl
  have hpartial : ∀ (b : Bool) (rs : List PlatformPostResult),
      progressValues (if b = true then [Event.onPartialSuccessCall rs] else []) = [] := by
    intro b rs
    split <;> rfl
  simp only [loopIter, h, hk, progressValues_append, hrep, hpre, hpartial,
    List.append_nil, List.nil_append]
  rfl

theorem loopIter_progressValues_error (delay n : Nat) (c : PostContent)
    (ps : PlatformSpecificOptions) (v : IterEnv) (i : Nat) (p : Platform)
    (acc : List PlatformPostResult) (t : Thrown)
    (h : (attemptOnePlatform c ps v p).2 = Except.error t) :
    progressValues (loopIter delay n c ps v i p acc).2 = [] := by
  rcases attempt_events_replicate c ps v p with ⟨k, hk⟩
  have hrep : progressValues (List.replicate k (Event.apiCall p)) = [] :=
    List.filterMap_eq_nil.mpr (fun e he => by
      rw [List.eq_of_mem_replicate he])
  have hpre : progressValues (if 0 < i then [Event.delayWait delay] else []) = [] := by
    split <;> rfl
  simp only [loopIter, h, hk, progressValues_append, hrep, hpre,
    List.append_nil, List.nil_append]
  rfl

/-- The progress values the loop publishes are a subsequence of the full
round formula values for completion counts acc.length + 1 up to acc.length +
rest.length (throwing iterations publish nothing). -/
theorem runLoop_progressValues_sublist (delay n : Nat) (c : PostContent)
    (ps : PlatformSpecificOptions) (env : Nat → IterEnv) :
    ∀ (rest : List Platform) (i : Nat) (acc : List PlatformPostResult),
      List.Sublist (progressValues (runLoop delay n c ps env i rest acc).2)
        ((List.range' (acc.length + 1) rest.length).map
          (fun k => jsRound (k * 90) n + 10)) := by
  intro rest
  induction rest with
  | nil => intro i acc; exact List.nil_sublist _
  | cons p rest ih =>
      intro i acc
      rw [show (runLoop delay n c ps env i (p :: rest) acc).2 =
        (loopIter delay n c ps (env i) i p acc).2 ++
          (runLoop delay n c ps env (i + 1) rest
            (acc ++ [(loopIter delay n c ps (env i) i p acc).1])).2 from rfl]
      rw [progressValues_append]
      have htail := ih (i + 1) (acc ++ [(loopIter delay n c ps (env i) i p acc).1])
      simp only [List.length_append, List.length_cons, List.length_nil,
        Nat.add_zero] at htail
      rw [List.length_cons, List.range'_succ, List.map_cons]
      cases h : (attemptOnePlatform c ps (env i) p).2 with
      | ok r =>
          rw [loopIter_progressValues_ok delay n c ps (env i) i p acc r h]
          rw [List.singleton_append]
          exact htail.cons₂ _
      | error t =>
          rw [loopIter_progressValues_error delay n c ps (env i) i p acc t h]
          rw [List.nil_append]
          exact htail.cons _

/-- True when every remaining attempt returns an adapter response rather
than throwing. -/
def attemptReturns (c : PostContent) (ps : PlatformSpecificOptions)
    (v : IterEnv) (p : Platform) : Bool :=
  match (attemptOnePlatform c ps v p).2 with
  | .ok _ => true
  | .error _ => false

def attemptsReturnFrom (c : PostContent) (ps : PlatformSpecificOptions)
    (env : Nat → IterEnv) : Nat → List Platform → Bool
  | _, [] => true
  | i, p :: rest =>
      attemptReturns c ps (env i) p && attemptsReturnFrom c ps env (i + 1) rest

theorem attemptReturns_other (c : PostContent) (ps : PlatformSpecificOptions)
    (v : IterEnv) (tag : String) :
    attemptReturns c ps v (Platform.other tag) = false := rfl

theorem attemptsReturnFrom_get (c : PostContent) (ps : PlatformSpecificOptions)
    (env : Nat → IterEnv) :
    ∀ (rest : List Platform) (i : Nat),
      attemptsReturnFrom c ps env i rest = true →
      ∀ (j : Nat) (p : Platform), rest[j]? = some p →
        attemptReturns c ps (env (i + j)) p = true := by
  intro rest
  induction rest with
  | nil => intro i h j p hp; cases hp
  | cons a rest ih =>
      intro i h j p hp
      rw [show attemptsReturnFrom c ps env i (a :: rest) =
        (attemptReturns c ps (env i) a &&
          attemptsReturnFrom c ps env (i + 1) rest) from rfl,
        Bool.and_eq_true] at h
      cases j with
      | zero =>
          simp only [List.getElem?_cons_zero, Option.some.injEq] at hp
          rw [← hp]
          simpa using h.1
      | succ j =>
          simp only [List.getElem?_cons_succ] at hp
          have := ih (i + 1) h.2 j p hp
          simpa [Nat.add_assoc, Nat.add_comm 1 j] using this

/-- When no attempt throws, the loop publishes exactly the full sequence of
round formula values. -/
theorem runLoop_progressValues_eq (delay n : Nat) (c : PostContent)
    (ps : PlatformSpecificOptions) (env : Nat → IterEnv) :
    ∀ (rest : List Platform) (i : Nat) (acc : List PlatformPostResult),
      attemptsReturnFrom c ps env i rest = true →
      progressValues (runLoop delay n c ps env i rest acc).2 =
        (List.range' (acc.length + 1) rest.length).map
          (fun k => jsRound (k * 90) n + 10) := by
  intro rest
  induction rest with
  | nil => intro i acc h; rfl
  | cons p rest ih =>
      intro i acc h
      rw [show attemptsReturnFrom c ps env i (p :: rest) =
        (attemptReturns c ps (env i) p &&
          attemptsReturnFrom c ps env (i + 1) rest) from rfl,
        Bool.and_eq_true] at h
      have hok : ∃ r, (attemptOnePlatform c ps (env i) p).2 = Except.ok r := by
        have h1 := h.1
        unfold attemptReturns at h1
        cases hcase : (attemptOnePlatform c ps (env i) p).2 with
        | ok r => exact ⟨r, rfl⟩
        | error t => rw [hcase] at h1; cases h1
      rcases hok with ⟨r, hr⟩
      rw [show (runLoop delay n c ps env i (p :: rest) acc).2 =
        (loopIter delay n c ps (env i) i p acc).2 ++
          (runLoop delay n c ps env (i + 1) rest
            (acc ++ [(loopIter delay n c ps (env i) i p acc).1])).2 from rfl]
      rw [progressValues_append,
        loopIter_progressValues_ok delay n c ps (env i) i p acc r hr,
        ih (i + 1) (acc ++ [(loopIter delay n c ps (env i) i p acc).1]) h.2]
      simp [List.range'_succ]

/-- Validated runs publish 0 and 10 before the loop, then the loop's
progress values, then 100 and the cleanup 0. -/
theorem submit_progressValues (options : UseMultiPlatformPostOptions)
    (req : MultiPlatformPostRequest) (env : Nat → IterEnv)
    (hval : validationError req = none) :
    progressValues (submitMultiPlatformPost options req env).2 =
      [0, 10] ++ progressValues (loopEventsOf options req env) ++ [100, 0] := by
  have h2 : (runLoop (effectiveDelay options) req.platforms.length req.content
      req.platformSpecific env 0 req.platforms []).2 =
      loopEventsOf options req env := rfl
  unfold submitMultiPlatformPost
  rw [hval]
  simp only [h2]
  split
  · simp [progressValues, List.filterMap_append, List.filterMap_cons,
      initEvents, finallyEvents]
  · split <;>
      simp [progressValues, List.filterMap_append, List.filterMap_cons,
        initEvents, finallyEvents, catchEvents]

/-- Runs failing validation publish only the initial 0 and the cleanup 0. -/
theorem submit_progressValues_invalid (options : UseMultiPlatformPostOptions)
    (req : MultiPlatformPostRequest) (env : Nat → IterEnv) (msg : String)
    (hval : validationError req = some msg) :
    progressValues (submitMultiPlatformPost options req env).2 = [0, 0] := by
  unfold submitMultiPlatformPost
  rw [hval]
  simp [progressValues, List.filterMap_append, List.filterMap_cons,
    initEvents, finallyEvents, catchEvents]

/-! ### C5 -/

/-- C5 counterexample: in the two-platform run [substack, x] whose Substack
attempt throws (missing session) and whose X attempt succeeds, the claim
demands that after the first platform settles the published progress equals
round(1/2 * 90) + 10 = 55; but the per-platform catch does not republish
progress, so the run publishes exactly 0, 10, 100, 100, 0 and the value 55
is never published at all. -/
theorem C5_round_formula_counterexample :
    substackFirstReq.platforms.length = 2 ∧
    jsRound (1 * 90) substackFirstReq.platforms.length + 10 = 55 ∧
    progressValues
      (submitMultiPlatformPost noOptions substackFirstReq noSessionEnv).2 =
      [0, 10, 100, 100, 0] ∧
    55 ∉ progressValues
      (submitMultiPlatformPost noOptions substackFirstReq noSessionEnv).2 := by
  refine ⟨rfl, rfl, ?_, ?_⟩ <;> decide

/-- C5 amended: in a validated run in which no platform attempt throws, the
progress published after the k-th platform settles equals
round(k/n * 90) + 10 for every 1 <= k <= n (the whole published sequence is
0, 10, those n values in order, 100, and the cleanup 0), with 10 published
after validation and before the first platform; and for selections without
duplicates the formula value stays below 100 before the final platform.
Platform attempts that throw are recorded without republishing progress and
are excluded. -/
theorem C5_round_formula_amended (options : UseMultiPlatformPostOptions)
    (req : MultiPlatformPostRequest) (env : Nat → IterEnv)
    (hval : validationError req = none)
    (hok : attemptsReturnFrom req.content req.platformSpecific env 0
      req.platforms = true) :
    progressValues (submitMultiPlatformPost options req env).2 =
      [0, 10] ++ (List.range' 1 req.platforms.length).map
        (fun k => jsRound (k * 90) req.platforms.length + 10) ++ [100, 0] ∧
    (req.platforms.Nodup → ∀ k, k + 1 < req.platforms.length →
      jsRound ((k + 1) * 90) req.platforms.length + 10 < 100) := by
  constructor
  · rw [submit_progressValues options req env hval]
    unfold loopEventsOf
    rw [runLoop_progressValues_eq (effectiveDelay options) req.platforms.length
      req.content req.platformSpecific env req.platforms 0 [] hok]
    rfl
  · intro hnodup k hk
    have hsubset : req.platforms ⊆
        [Platform.linkedin, Platform.x, Platform.substack] := by
      intro p hp
      rcases List.mem_iff_getElem?.mp hp with ⟨j, hj⟩
      have hr := attemptsReturnFrom_get req.content req.platformSpecific env
        req.platforms 0 hok j p hj
      cases p with
      | other tag => rw [attemptReturns_other] at hr; cases hr
      | linkedin => simp
      | x => simp
      | substack => simp
    have hlen3 : req.platforms.length ≤ 3 := by
      simpa using (hnodup.subperm hsubset).length_le
    have hn : req.platforms.length = 2 ∨ req.platforms.length = 3 := by omega
    rcases hn with hn | hn <;> rw [hn] at hk ⊢
    · have hk0 : k = 0 := by omega
      subst hk0; decide
    · have hk01 : k = 0 ∨ k = 1 := by omega
      rcases hk01 with rfl | rfl <;> decide

/-- Witness for the amended C5 at a three-platform run with no throwing
attempt: the published values are exactly 0, 10, 40, 70, 100, 100, 0. -/
theorem C5_round_formula_amended_witness :
    validationError threePlatformReq = none ∧
    attemptsReturnFrom threePlatformReq.content threePlatformReq.platformSpecific
      allOkEnv 0 threePlatformReq.platforms = true ∧
    (progressValues (submitMultiPlatformPost noOptions threePlatformReq allOkEnv).2 =
      [0, 10] ++ (List.range' 1 threePlatformReq.platforms.length).map
        (fun k => jsRound (k * 90) threePlatformReq.platforms.length + 10) ++
        [100, 0] ∧
    (threePlatformReq.platforms.Nodup → ∀ k,
      k + 1 < threePlatformReq.platforms.length →
      jsRound ((k + 1) * 90) threePlatformReq.platforms.length + 10 < 100)) ∧
    progressValues (submitMultiPlatformPost noOptions threePlatformReq allOkEnv).2 =
      [0, 10, 40, 70, 100, 100, 0] :=
  ⟨by decide, by decide,
   C5_round_formula_amended noOptions threePlatformReq allOkEnv (by decide)
     (by decide), by decide⟩

/-! ### C7 -/

/-- A single-platform request posting only to x. -/
def oneXReq : MultiPlatformPostRequest :=
  { platforms := [Platform.x],
    content := { text := "hi", media := none, mediaType := MediaType.TEXT },
    platformSpecific := { linkedin := none, substack := none } }

theorem jsRound_le_jsRound (a b d : Nat) (h : a ≤ b) :
    jsRound a d ≤ jsRound b d :=
  Nat.div_le_div_right (by omega)

theorem jsRound_le_90 (k n : Nat) (hk : k ≤ n) (hn : 0 < n) :
    jsRound (k * 90) n ≤ 90 := by
  have hlt : 2 * (k * 90) + n < 91 * (2 * n) := by omega
  have := (Nat.div_lt_iff_lt_mul (by omega : 0 < 2 * n)).mpr hlt
  unfold jsRound
  omega

/-- C7 counterexample: even the simplest fully successful one-platform run
publishes the progress sequence 0, 10, 100, 100, 0 between submission start
and settle: the cleanup in the finally block resets progress to 0 before the
promise settles, so the published sequence is not monotonically
non-decreasing. -/
theorem C7_monotone_counterexample :
    progressValues (submitMultiPlatformPost noOptions oneXReq allOkEnv).2 =
      [0, 10, 100, 100, 0] ∧
    ¬ List.Pairwise (· ≤ ·)
      (progressValues (submitMultiPlatformPost noOptions oneXReq allOkEnv).2) := by
  refine ⟨?_, ?_⟩ <;> decide

/-- C7 amended: within every run the published uploadProgress sequence is
monotonically non-decreasing up to (but excluding) the very last published
value, the unconditional reset to 0 performed by the finally cleanup as the
run settles. -/
theorem C7_progress_monotone_amended (options : UseMultiPlatformPostOptions)
    (req : MultiPlatformPostRequest) (env : Nat → IterEnv) :
    List.Pairwise (· ≤ ·)
      ((progressValues (submitMultiPlatformPost options req env).2).dropLast) := by
  cases hval : validationError req with
  | some msg =>
      rw [submit_progressValues_invalid options req env msg hval]
      decide
  | none =>
      rw [submit_progressValues options req env hval]
      have hsub : List.Sublist (progressValues (loopEventsOf options req env))
          ((List.range' 1 req.platforms.length).map
            (fun k => jsRound (k * 90) req.platforms.length + 10)) := by
        have := runLoop_progressValues_sublist (effectiveDelay options)
          req.platforms.length req.content req.platformSpecific env
          req.platforms 0 []
        simpa [loopEventsOf] using this
      have hn : 0 < req.platforms.length := by
        have hne := validationError_none_platforms_ne hval
        cases hlp : req.platforms with
        | nil => exact absurd hlp hne
        | cons a l => simp [hlp]
      have hbound : ∀ a ∈ progressValues (loopEventsOf options req env),
          10 ≤ a ∧ a ≤ 100 := by
        intro a ha
        have hmap := hsub.subset ha
        rcases List.mem_map.mp hmap with ⟨k, hk, rfl⟩
        have hkb := List.mem_range'_1.mp hk
        have hle := jsRound_le_90 k req.platforms.length (by omega) hn
        omega
      have hLpair : List.Pairwise (· ≤ ·)
          (progressValues (loopEventsOf options req env)) := by
        refine List.Pairwise.sublist hsub ?_
        rw [List.pairwise_map]
        exact (List.pairwise_lt_range' 1 req.platforms.length).imp
          (fun hlt => by
            have := jsRound_le_jsRound _ _ req.platforms.length
              (Nat.mul_le_mul_right 90 (Nat.le_of_lt hlt))
            omega)
      have hshape : [0, 10] ++ progressValues (loopEventsOf options req env) ++
          [100, 0] =
          (([0, 10] ++ progressValues (loopEventsOf options req env) ++ [100]) ++
            [0]) := by
        simp [List.append_assoc]
      rw [hshape, List.dropLast_concat]
      apply List.pairwise_append.mpr
      refine ⟨?_, List.pairwise_singleton _ _, ?_⟩
      · apply List.pairwise_append.mpr
        refine ⟨by decide, hLpair, ?_⟩
        intro a ha b hb
        have := (hbound b hb).1
        have ha2 : a = 0 ∨ a = 10 := by
          rcases List.mem_cons.mp ha with rfl | ha3
          · exact Or.inl rfl
          · rcases List.mem_cons.mp ha3 with rfl | ha4
            · exact Or.inr rfl
            · cases ha4
        omega
      · intro a ha b hb
        have hb100 : b = 100 := by
          rcases List.mem_cons.mp hb with rfl | hb2
          · rfl
          · cases hb2
        rcases List.mem_append.mp ha with ha2 | ha2
        · have : a = 0 ∨ a = 10 := by
            rcases List.mem_cons.mp ha2 with rfl | ha3
            · exact Or.inl rfl
            · rcases List.mem_cons.mp ha3 with rfl | ha4
              · exact Or.inr rfl
              · cases ha4
          omega
        · have := (hbound a ha2).2
          omega

/-! ### C8 -/

/-- Events that touch neither isPosting nor the abort controller. -/
def preservesRunFlags : Event → Bool
  | .setIsPosting _ => false
  | .setAbortController _ => false
  | _ => true

theorem applyEvent_flags (s : HookState) (e : Event)
    (h : preservesRunFlags e = true) :
    (applyEvent s e).isPosting = s.isPosting ∧
    (applyEvent s e).abortActive = s.abortActive := by
  cases e <;> simp_all [applyEvent, preservesRunFlags]

theorem loopIter_events_preserve (delay n : Nat) (c : PostContent)
    (ps : PlatformSpecificOptions) (v : IterEnv) (i : Nat) (p : Platform)
    (acc : List PlatformPostResult) :
    ∀ e ∈ (loopIter delay n c ps v i p acc).2, preservesRunFlags e = true := by
  intro e he
  rcases attempt_events_replicate c ps v p with ⟨k, hk⟩
  cases h : (attemptOnePlatform c ps v p).2 with
  | ok r =>
      simp only [loopIter, h, hk, List.mem_append] at he
      rcases he with ((he | he) | he) | he
      · split at he
        · simp only [List.mem_singleton] at he; subst he; rfl
        · cases he
      · rw [List.eq_of_mem_replicate he]; rfl
      · rcases List.mem_cons.mp he with rfl | he2
        · rfl
        · rcases List.mem_cons.mp he2 with rfl | he3
          · rfl
          · cases he3
      · split at he
        · simp only [List.mem_singleton] at he; subst he; rfl
        · cases he
  | error t =>
      simp only [loopIter, h, hk, List.mem_append] at he
      rcases he with (he | he) | he
      · split at he
        · simp only [List.mem_singleton] at he; subst he; rfl
        · cases he
      · rw [List.eq_of_mem_replicate he]; rfl
      · rcases List.mem_cons.mp he with rfl | he2
        · rfl
        · cases he2

theorem runLoop_events_preserve (delay n : Nat) (c : PostContent)
    (ps : PlatformSpecificOptions) (env : Nat → IterEnv) :
    ∀ (rest : List Platform) (i : Nat) (acc : List PlatformPostResult),
      ∀ e ∈ (runLoop delay n c ps env i rest acc).2,
        preservesRunFlags e = true := by
  intro rest
  induction rest with
  | nil => intro i acc e he; cases he
  | cons p rest ih =>
      intro i acc e he
      rcases List.mem_append.mp he with he | he
      · exact loopIter_events_preserve delay n c ps (env i) i p acc e he
      · exact ih (i + 1) _ e he

theorem suspensionStates_append (l1 l2 : List Event) :
    ∀ s, suspensionStates s (l1 ++ l2) =
      suspensionStates s l1 ++ suspensionStates (applyEvents s l1) l2 := by
  induction l1 with
  | nil => intro s; rfl
  | cons e l1 ih =>
      intro s
      have hstep : applyEvents s (e :: l1) = applyEvents (applyEvent s e) l1 := rfl
      show suspensionStates s (e :: (l1 ++ l2)) = _
      simp only [suspensionStates, ih (applyEvent s e), hstep]
      split <;> simp

theorem suspensionStates_flags (evs : List Event)
    (h : ∀ e ∈ evs, preservesRunFlags e = true) :
    ∀ s, ∀ t ∈ suspensionStates s evs,
      t.isPosting = s.isPosting ∧ t.abortActive = s.abortActive := by
  induction evs with
  | nil => intro s t ht; cases ht
  | cons e evs ih =>
      intro s t ht
      have hpres := applyEvent_flags s e (h e (List.mem_cons_self e evs))
      have htail : ∀ x ∈ evs, preservesRunFlags x = true :=
        fun x hx => h x (List.mem_cons_of_mem e hx)
      unfold suspensionStates at ht
      split at ht
      · rcases List.mem_cons.mp ht with rfl | ht2
        · exact ⟨rfl, rfl⟩
        · have hflags := ih htail (applyEvent s e) t ht2
          exact ⟨hflags.1.trans hpres.1, hflags.2.trans hpres.2⟩
      · have hflags := ih htail (applyEvent s e) t ht
        exact ⟨hflags.1.trans hpres.1, hflags.2.trans hpres.2⟩

theorem suspensionStates_initEvents (req : MultiPlatformPostRequest) :
    ∀ s, suspensionStates s (initEvents req) = [] := fun _ => rfl

theorem suspensionStates_progress (v : Nat) :
    ∀ s, suspensionStates s [Event.setUploadProgress v] = [] := fun _ => rfl

theorem suspensionStates_finally :
    ∀ s, suspensionStates s finallyEvents = [] := fun _ => rfl

theorem suspensionStates_catch (msg : String) :
    ∀ s, suspensionStates s (catchEvents msg) = [] := fun _ => rfl

theorem loopEventsOf_preserve (options : UseMultiPlatformPostOptions)
    (req : MultiPlatformPostRequest) (env : Nat → IterEnv) :
    ∀ e ∈ loopEventsOf options req env, preservesRunFlags e = true :=
  fun e he => runLoop_events_preserve (effectiveDelay options)
    req.platforms.length req.content req.platformSpecific env req.platforms 0 []
    e he

theorem suspension_flags_main (options : UseMultiPlatformPostOptions)
    (req : MultiPlatformPostRequest) (env : Nat → IterEnv) (s0 t : HookState)
    (X : List Event) (hX : ∀ sx, suspensionStates sx X = [])
    (ht : t ∈ suspensionStates s0 (initEvents req ++
      [Event.setUploadProgress 10] ++ loopEventsOf options req env ++
      [Event.setUploadProgress 100] ++ X ++ finallyEvents)) :
    t.isPosting = true ∧ t.abortActive = true := by
  rw [suspensionStates_append, suspensionStates_append, suspensionStates_append,
    suspensionStates_append, suspensionStates_append] at ht
  simp only [suspensionStates_initEvents, suspensionStates_progress,
    suspensionStates_finally, hX, List.nil_append, List.append_nil] at ht
  have hstart : (applyEvents s0 (initEvents req ++
      [Event.setUploadProgress 10])).isPosting = true ∧
      (applyEvents s0 (initEvents req ++
        [Event.setUploadProgress 10])).abortActive = true := ⟨rfl, rfl⟩
  have hflags := suspensionStates_flags (loopEventsOf options req env)
    (loopEventsOf_preserve options req env) _ t ht
  exact ⟨hflags.1.trans hstart.1, hflags.2.trans hstart.2⟩

theorem submit_suspension_flags (options : UseMultiPlatformPostOptions)
    (req : MultiPlatformPostRequest) (env : Nat → IterEnv) (s0 t : HookState)
    (ht : t ∈ suspensionStates s0 (submitMultiPlatformPost options req env).2) :
    t.isPosting = true ∧ t.abortActive = true := by
  have h2 : (runLoop (effectiveDelay options) req.platforms.length req.content
      req.platformSpecific env 0 req.platforms []).2 =
      loopEventsOf options req env := rfl
  cases hval : validationError req with
  | some msg =>
      unfold submitMultiPlatformPost at ht
      rw [hval] at ht
      rw [suspensionStates_append, suspensionStates_append,
        suspensionStates_initEvents, suspensionStates_catch,
        suspensionStates_finally] at ht
      cases ht
  | none =>
      unfold submitMultiPlatformPost at ht
      rw [hval] at ht
      simp only [h2] at ht
      split at ht
      · refine suspension_flags_main options req env s0 t _ ?_ ht
        intro sx; rfl
      · split at ht
        · refine suspension_flags_main options req env s0 t _ ?_ ht
          intro sx; rfl
        · refine suspension_flags_main options req env s0 t _ ?_ ht
          intro sx; rfl

/-- C8: at every suspension point of every run (the only moments other code
observes the hook mid-run), isPosting is true, the abort controller exists,
and calling cancelPosting there synchronously (without awaiting anything)
sets isPosting false, uploadProgress 0, and the non-empty cancellation
message. -/
theorem C8_cancel_while_posting (options : UseMultiPlatformPostOptions)
    (req : MultiPlatformPostRequest) (env : Nat → IterEnv) (s0 t : HookState)
    (ht : t ∈ suspensionStates s0 (submitMultiPlatformPost options req env).2) :
    t.isPosting = true ∧
    cancelPosting t = { t with isPosting := false, uploadProgress := 0,
                               postError := some "Posting cancelled by user" } ∧
    ("Posting cancelled by user" : String) ≠ "" := by
  have hflags := submit_suspension_flags options req env s0 t ht
  refine ⟨hflags.1, ?_, by decide⟩
  unfold cancelPosting
  rw [if_pos hflags.2]

/-- The hook state at the first suspension point of the worked example. -/
def c8state : HookState :=
  { isPosting := true, postSuccess := false, postError := none,
    uploadProgress := 10, currentPlatforms := [Platform.x, Platform.linkedin],
    results := [], abortActive := true }

/-- Witness for C8 at the worked example's first adapter call. -/
theorem C8_cancel_while_posting_witness :
    c8state ∈ suspensionStates initialHookState
      (submitMultiPlatformPost noOptions c4req c4env).2 ∧
    (c8state.isPosting = true ∧
    cancelPosting c8state = { c8state with
                                isPosting := false, uploadProgress := 0,
                                postError := some "Posting cancelled by user" } ∧
    ("Posting cancelled by user" : String) ≠ "") :=
  ⟨by decide,
   C8_cancel_while_posting noOptions c4req c4env initialHookState c8state
     (by decide)⟩

/-! ### C9 -/

theorem applyEvent_results (s : HookState) (e : Event) :
    (applyEvent s e).results =
      match e with
      | Event.setResults rs => rs
      | _ => s.results := by
  cases e <;> rfl

theorem applyEvents_results_congr (evs : List Event) :
    ∀ s1 s2 : HookState, s1.results = s2.results →
      (applyEvents s1 evs).results = (applyEvents s2 evs).results := by
  induction evs with
  | nil => intro s1 s2 h; exact h
  | cons e evs ih =>
      intro s1 s2 h
      apply ih
      rw [applyEvent_results, applyEvent_results]
      cases e <;> simp [h]

theorem cancelPosting_results (s : HookState) :
    (cancelPosting s).results = s.results := by
  unfold cancelPosting
  split <;> rfl

theorem cancelOutcomes_results (evs : List Event) :
    ∀ s : HookState, ∀ t ∈ cancelOutcomes s evs,
      t.results = (applyEvents s evs).results := by
  induction evs with
  | nil => intro s t ht; cases ht
  | cons e evs ih =>
      intro s t ht
      unfold cancelOutcomes at ht
      split at ht
      · rcases List.mem_cons.mp ht with rfl | ht2
        · exact applyEvents_results_congr (e :: evs) _ _ (cancelPosting_results s)
        · exact ih (applyEvent s e) t ht2
      · exact ih (applyEvent s e) t ht

/-- C9 counterexample: in the worked example, cancelling at the final
suspension point (while the second platform's call is in flight, with one
result recorded) still ends the run with both results applied: the dispatch
loop never consults the abort signal, so the late-arriving second result
mutates the published state instead of being discarded. -/
theorem C9_cancel_ignored_counterexample :
    ((suspensionStates initialHookState
      (submitMultiPlatformPost noOptions c4req c4env).2).map
        (fun s => s.results.length)) = [0, 1, 1] ∧
    ((cancelOutcomes initialHookState
      (submitMultiPlatformPost noOptions c4req c4env).2).map
        (fun s => s.results.length)) = [2, 2, 2] := by
  refine ⟨?_, ?_⟩ <;> decide

/-- C9 amended: cancellation does not make the loop discard anything: for
every suspension point, resuming after cancelPosting applies exactly the
remaining events, so the run ends with the same results list as an
uncancelled run. -/
theorem C9_late_results_applied_amended (options : UseMultiPlatformPostOptions)
    (req : MultiPlatformPostRequest) (env : Nat → IterEnv) (s0 t : HookState)
    (ht : t ∈ cancelOutcomes s0 (submitMultiPlatformPost options req env).2) :
    t.results =
      (applyEvents s0 (submitMultiPlatformPost options req env).2).results :=
  cancelOutcomes_results (submitMultiPlatformPost options req env).2 s0 t ht

/-- The final state of the worked example when cancelled at its first
suspension point. -/
def c9state : HookState :=
  applyEvents (cancelPosting c8state)
    ((submitMultiPlatformPost noOptions c4req c4env).2.drop 8)

/-- Witness for the amended C9 at the worked example. -/
theorem C9_late_results_applied_amended_witness :
    (cancelOutcomes initialHookState
      (submitMultiPlatformPost noOptions c4req c4env).2).head? = some c9state ∧
    c9state ∈ cancelOutcomes initialHookState
      (submitMultiPlatformPost noOptions c4req c4env).2 ∧
    c9state.results = (applyEvents initialHookState
      (submitMultiPlatformPost noOptions c4req c4env).2).results :=
  ⟨by decide, by decide,
   C9_late_results_applied_amended noOptions c4req c4env initialHookState
     c9state (by decide)⟩
